import Mathlib

/-!
Shallow embedding of `src/upload-multi.py` (class `PeerTubeUploader`).

The Python program is a sequential HTTP client.  We embed it as pure
functions over an explicit `Session` state (the object's mutable fields),
a `Remote` environment describing the remote API's responses, and an
event trace recording every HTTP request issued, every file handle
opened or closed, and every diagnostic printed.  Exceptions become
`Except Err`.  `requests.Response.raise_for_status` raises exactly for
status codes in `[400, 600)`; we take that as the notion of a
non-success ("failure") status throughout.
-/

/-- `requests` raises `HTTPError` from `raise_for_status` exactly for 4xx/5xx. -/
def isHttpError (status : Nat) : Bool := 400 ≤ status && status < 600

/-- One remote video channel as listed in the `/users/me` profile:
the code reads `channel['name']` and `channel['id']`. -/
structure Channel where
  name : String
  id : Nat
deriving DecidableEq, Repr

/-- The remote's response to one upload request: HTTP status, body text
(`response.text`) and, on success, the created-video document (modelled by
the video id, the payload the code returns verbatim). -/
structure UploadResp where
  status : Nat
  text : String
  doc : Nat
deriving DecidableEq, Repr

/-- The remote API environment: the responses the fixed endpoints return.
Upload responses may depend on the uploaded path. -/
structure Remote where
  clientStatus : Nat
  client_id : String
  client_secret : String
  tokenStatus : Nat
  access_token : String
  meStatus : Nat
  videoChannels : List Channel
  createStatus : Nat
  createdChannelId : Nat
  uploadFor : String → UploadResp

/-- The mutable fields of a `PeerTubeUploader` object (`__init__`, lines 9-15).
`channels` is the Python dict `name -> id`, modelled as an association list
with Python-dict insertion semantics. -/
structure Session where
  host : String
  username : String
  password : String
  token : Option String
  channel_id : Option Nat
  channels : List (String × Nat)
deriving DecidableEq, Repr

/-- Python truthiness of an optional string: `None` and `""` are falsy. -/
def strTruthy : Option String → Bool
  | none => false
  | some s => !(s == "")

/-- The guard `if not self.token` (lines 55 and 95). -/
def tokenFalsy (s : Session) : Bool := !(strTruthy s.token)

/-- `host.rstrip('/')` (line 10). -/
def rstripSlash (s : String) : String :=
  String.mk ((s.toList.reverse.dropWhile (fun c => c = '/')).reverse)

/-- `PeerTubeUploader.__init__` (lines 9-15). -/
def mkUploader (host username password : String) : Session :=
  { host := rstripSlash host, username := username, password := password,
    token := none, channel_id := none, channels := [] }

/-- Python `dict.get(k, default)` on the channel cache, with the default
being an optional id (`self.channel_id`).  Here only the lookup itself. -/
def dictGet (d : List (String × Nat)) (k : String) : Option Nat :=
  (d.find? (fun p => p.1 == k)).map (fun p => p.2)

/-- Python `d[k] = v`: replace the value in place if the key exists,
otherwise append the new binding (dicts preserve insertion order). -/
def dictInsert (d : List (String × Nat)) (k : String) (v : Nat) : List (String × Nat) :=
  if d.any (fun p => p.1 == k) then
    d.map (fun p => if p.1 == k then (p.1, v) else p)
  else d ++ [(k, v)]

/-- The dict comprehension at line 48:
`{channel['name']: channel['id'] for channel in user_data['videoChannels']}`. -/
def dictFromChannels (cs : List Channel) : List (String × Nat) :=
  cs.foldl (fun d c => dictInsert d c.name c.id) []

/-- `str.lower()`, applied characterwise (the suffixes compared are
ASCII). -/
def strLower (s : String) : String := String.mk (s.toList.map Char.toLower)

/-- `pathlib.Path(p).name`: the part after the last slash. -/
def pyName (path : String) : String :=
  String.mk ((path.toList.reverse.takeWhile (fun c => c ≠ '/')).reverse)

/-- Index of the last `'.'` in a character list, if any. -/
def lastDotIdx (l : List Char) : Option Nat :=
  match (l.reverse.findIdx? (fun c => c = '.')) with
  | none => none
  | some j => some (l.length - 1 - j)

/-- `pathlib.Path(p).suffix`: the extension of the final component,
dot included; empty when the last dot is leading or trailing. -/
def pySuffix (path : String) : String :=
  let l := (pyName path).toList
  match lastDotIdx l with
  | none => ""
  | some i => if 0 < i && i + 1 < l.length then String.mk (l.drop i) else ""

/-- `pathlib.Path(p).stem`: the final component without its suffix. -/
def pyStem (path : String) : String :=
  let l := (pyName path).toList
  match lastDotIdx l with
  | none => String.mk l
  | some i => if 0 < i && i + 1 < l.length then String.mk (l.take i) else String.mk l

/-- The exceptions the program can raise, by source of the raise:
`httpError` is `requests.exceptions.HTTPError` from `raise_for_status`;
`noChannels` is `Exception("No video channels found")` (line 51); the last
three are the `Exception`s raised at lines 136, 138, 140. -/
inductive Err where
  | httpError (status : Nat)
  | noChannels
  | formatNotSupported
  | quotaExceeded
  | fileUnreadable
deriving DecidableEq, Repr

/-- Observable events of a run: HTTP requests (with the bearer token
attached, if any), file-handle operations, diagnostics printed, sleeps.
`closeFile` is the event an explicit close of the upload file handle
would emit; the source never performs one. -/
inductive Event where
  | reqGetClient
  | reqPostToken
  | reqGetMe
  | reqCreateChannel (bearer : Option String) (name displayName : String)
      (description : Option String)
  | reqUpload (bearer : Option String) (channelId : Option Nat) (title : String)
      (privacy : Nat) (wait : Bool) (description : Option String) (path : String)
  | openFile (path : String)
  | closeFile (path : String)
  | printAvailableChannels (channels : List (String × Nat))
  | printCreatedChannel (name : String)
  | printConflict (name : String)
  | printUploading (name : String)
  | printUploadSuccess (name : String)
  | printUploadFailed (e : Err)
  | printServerResponse (text : String)
  | printBulkError (name : String) (e : Err)
  | sleepSecs (n : Nat)
deriving DecidableEq, Repr

/-- `PeerTubeUploader.login` (lines 17-51).  Returns outcome, the updated
session, and the trace.  Note the access token is stored (line 38) before
the channel check (line 46), so the token survives a `noChannels` failure. -/
def login (r : Remote) (s : Session) : Except Err Unit × Session × List Event :=
  if isHttpError r.clientStatus then
    (Except.error (Err.httpError r.clientStatus), s, [Event.reqGetClient])
  else if isHttpError r.tokenStatus then
    (Except.error (Err.httpError r.tokenStatus), s, [Event.reqGetClient, Event.reqPostToken])
  else
    let s1 : Session := { s with token := some r.access_token }
    if isHttpError r.meStatus then
      (Except.error (Err.httpError r.meStatus), s1,
        [Event.reqGetClient, Event.reqPostToken, Event.reqGetMe])
    else
      match r.videoChannels with
      | [] =>
          (Except.error Err.noChannels, s1,
            [Event.reqGetClient, Event.reqPostToken, Event.reqGetMe])
      | c :: _ =>
          let d := dictFromChannels r.videoChannels
          (Except.ok (), { s1 with channel_id := some c.id, channels := d },
            [Event.reqGetClient, Event.reqPostToken, Event.reqGetMe,
             Event.printAvailableChannels d])

/-- Python `x or y` / `if x:` on optional strings: keep `x` only if truthy. -/
def orElseStr (x : Option String) (y : String) : String :=
  match x with
  | some v => if v == "" then y else v
  | none => y

/-- `data['description'] = description` happens only `if description:`. -/
def truthyOpt (x : Option String) : Option String :=
  match x with
  | some v => if v == "" then none else some v
  | none => none

/-- Body of `create_channel` after the login-on-demand check (lines 58-80).
The returned document is modelled by the only field the code reads,
`channel_data['id']`; the `Option` is `None` on the swallowed 409 path. -/
def create_body (r : Remote) (s : Session) (name : String)
    (display_name : Option String) (description : Option String) :
    Except Err (Option Nat) × Session × List Event :=
  let displayName := orElseStr display_name name
  let descr := truthyOpt description
  let tr := [Event.reqCreateChannel s.token name displayName descr]
  if isHttpError r.createStatus then
    if r.createStatus == 409 then
      (Except.ok none, s, tr ++ [Event.printConflict name])
    else
      (Except.error (Err.httpError r.createStatus), s, tr)
  else
    (Except.ok (some r.createdChannelId),
      { s with channels := dictInsert s.channels name r.createdChannelId },
      tr ++ [Event.printCreatedChannel name])

/-- `PeerTubeUploader.create_channel` (lines 53-80): authenticate on demand,
then the request proper. -/
def create_channel (r : Remote) (s : Session) (name : String)
    (display_name : Option String) (description : Option String) :
    Except Err (Option Nat) × Session × List Event :=
  if tokenFalsy s then
    match login r s with
    | (Except.error e, s', tr) => (Except.error e, s', tr)
    | (Except.ok _, s', tr) =>
        match create_body r s' name display_name description with
        | (res, s'', tr') => (res, s'', tr ++ tr')
  else create_body r s name display_name description

/-- The channel resolution at line 103:
`self.channels.get(channel_name, self.channel_id) if channel_name else self.channel_id`. -/
def resolveChannelId (s : Session) (channel_name : Option String) : Option Nat :=
  match channel_name with
  | some cn =>
      if cn == "" then s.channel_id
      else
        match dictGet s.channels cn with
        | some i => some i
        | none => s.channel_id
  | none => s.channel_id

/-- Status-code mapping of the upload response (lines 135-150):
415, 413, 422 are checked in that order, then `raise_for_status`;
`none` means the upload is treated as successful. -/
def uploadErrOf (resp : UploadResp) : Option Err :=
  if resp.status == 415 then some Err.formatNotSupported
  else if resp.status == 413 then some Err.quotaExceeded
  else if resp.status == 422 then some Err.fileUnreadable
  else if isHttpError resp.status then some (Err.httpError resp.status)
  else none

/-- Body of `upload_video` after the login-on-demand check (lines 98-150).
The file handle is opened at line 121 with no `with`/`finally`/`close`:
no `closeFile` event is ever emitted, on any path. -/
def upload_body (r : Remote) (s : Session) (video_path : String)
    (title : Option String) (description : Option String) (privacy : Nat)
    (channel_name : Option String) (wait_transcoding : Bool) :
    Except Err Nat × Session × List Event :=
  let t := orElseStr title (pyStem video_path)
  let channel_id := resolveChannelId s channel_name
  let descr := truthyOpt description
  let tr := [Event.openFile video_path, Event.printUploading (pyName video_path),
             Event.reqUpload s.token channel_id t privacy wait_transcoding descr video_path]
  let resp := r.uploadFor video_path
  match uploadErrOf resp with
  | some (Err.httpError st) =>
      (Except.error (Err.httpError st), s,
        tr ++ [Event.printUploadFailed (Err.httpError st),
               Event.printServerResponse resp.text])
  | some e => (Except.error e, s, tr)
  | none => (Except.ok resp.doc, s, tr ++ [Event.printUploadSuccess (pyName video_path)])

/-- `PeerTubeUploader.upload_video` (lines 82-150): authenticate on demand,
then the multipart upload proper. -/
def upload_video (r : Remote) (s : Session) (video_path : String)
    (title : Option String) (description : Option String) (privacy : Nat)
    (channel_name : Option String) (wait_transcoding : Bool) :
    Except Err Nat × Session × List Event :=
  if tokenFalsy s then
    match login r s with
    | (Except.error e, s', tr) => (Except.error e, s', tr)
    | (Except.ok _, s', tr) =>
        match upload_body r s' video_path title description privacy
            channel_name wait_transcoding with
        | (res, s'', tr') => (res, s'', tr ++ tr')
  else upload_body r s video_path title description privacy channel_name wait_transcoding

/-- `video_extensions = {'.mp4', '.webm', '.mkv'}` (line 154). -/
def video_extensions : List String := [".mp4", ".webm", ".mkv"]

/-- `PeerTubeUploader.bulk_upload` (lines 152-172), with the directory
listing (`Path(video_dir).iterdir()`) given explicitly as the list of entry
names in listing order.  Every exception from a single upload is caught,
reported and iteration continues (lines 168-170). -/
def bulk_upload (r : Remote) (s : Session) (video_dir : String)
    (listing : List String) (privacy : Nat) (channel_name : Option String) :
    List Nat × Session × List Event :=
  match listing with
  | [] => ([], s, [])
  | name :: rest =>
      let path := video_dir ++ "/" ++ name
      if video_extensions.contains (strLower (pySuffix path)) then
        match upload_video r s path none none privacy channel_name true with
        | (Except.ok doc, s', tr) =>
            match bulk_upload r s' video_dir rest privacy channel_name with
            | (res, s'', tr') => (doc :: res, s'', tr ++ [Event.sleepSecs 2] ++ tr')
        | (Except.error e, s', tr) =>
            match bulk_upload r s' video_dir rest privacy channel_name with
            | (res, s'', tr') =>
                (res, s'', tr ++ [Event.printBulkError (pyName path) e] ++ tr')
      else bulk_upload r s video_dir rest privacy channel_name

/-! ### Trace observers -/

/-- Requests belonging to the authentication sequence. -/
def isAuthReq : Event → Bool
  | Event.reqGetClient => true
  | Event.reqPostToken => true
  | Event.reqGetMe => true
  | _ => false

/-- The client-credential fetch that starts an authentication sequence. -/
def isGetClient : Event → Bool
  | Event.reqGetClient => true
  | _ => false

/-- Requests of the two user-facing operations. -/
def isOpReq : Event → Bool
  | Event.reqCreateChannel _ _ _ _ => true
  | Event.reqUpload _ _ _ _ _ _ _ => true
  | _ => false

/-- How many events of a trace satisfy `p`. -/
def countEv (p : Event → Bool) (tr : List Event) : Nat := (tr.filter p).length

/-- Every upload request in the trace carries a bearer token. -/
def uploadReqsBearerSet (tr : List Event) : Bool :=
  tr.all fun ev =>
    match ev with
    | Event.reqUpload b _ _ _ _ _ _ => b.isSome
    | _ => true

/-- The channel ids carried by the upload requests of a trace, in order. -/
def reqChannelIds (tr : List Event) : List (Option Nat) :=
  tr.filterMap fun ev =>
    match ev with
    | Event.reqUpload _ cid _ _ _ _ _ => some cid
    | _ => none

/-- The `(path, waitTranscoding)` pairs of the upload requests of a trace. -/
def uploadReqPaths (tr : List Event) : List (String × Bool) :=
  tr.filterMap fun ev =>
    match ev with
    | Event.reqUpload _ _ _ _ w _ pa => some (pa, w)
    | _ => none

/-! ### Lemmas about `login` -/

/-- The four possible traces of a `login` run. -/
lemma login_trace_cases (r : Remote) (s : Session) :
    (login r s).2.2 = [Event.reqGetClient] ∨
    (login r s).2.2 = [Event.reqGetClient, Event.reqPostToken] ∨
    (login r s).2.2 = [Event.reqGetClient, Event.reqPostToken, Event.reqGetMe] ∨
    (login r s).2.2 = [Event.reqGetClient, Event.reqPostToken, Event.reqGetMe,
      Event.printAvailableChannels (dictFromChannels r.videoChannels)] := by
  unfold login
  split
  · exact Or.inl rfl
  · split
    · exact Or.inr (Or.inl rfl)
    · split
      · exact Or.inr (Or.inr (Or.inl rfl))
      · split
        · exact Or.inr (Or.inr (Or.inl rfl))
        · exact Or.inr (Or.inr (Or.inr rfl))

lemma login_count_getClient (r : Remote) (s : Session) :
    countEv isGetClient (login r s).2.2 = 1 := by
  rcases login_trace_cases r s with h | h | h | h <;> rw [h] <;> rfl

lemma login_count_auth_le (r : Remote) (s : Session) :
    countEv isAuthReq (login r s).2.2 ≤ 3 := by
  rcases login_trace_cases r s with h | h | h | h <;> rw [h] <;>
    simp [countEv, isAuthReq]

lemma login_no_op_req (r : Remote) (s : Session) :
    countEv isOpReq (login r s).2.2 = 0 := by
  rcases login_trace_cases r s with h | h | h | h <;> rw [h] <;> rfl

lemma login_bearer (r : Remote) (s : Session) :
    uploadReqsBearerSet (login r s).2.2 = true := by
  rcases login_trace_cases r s with h | h | h | h <;> rw [h] <;> rfl

/-- A successful `login` stores the access token returned by the remote. -/
lemma login_ok_token (r : Remote) (s : Session) :
    (login r s).1 = Except.ok () → (login r s).2.1.token = some r.access_token := by
  unfold login
  split
  · intro h; exact absurd h (by simp)
  · split
    · intro h; exact absurd h (by simp)
    · split
      · intro h; exact absurd h (by simp)
      · split
        · intro h; exact absurd h (by simp)
        · intro _; rfl

/-! ### Lemmas about `upload_body` and `create_body` -/

/-- The upload proper never mutates the session. -/
lemma upload_body_session (r : Remote) (s : Session) (vp : String)
    (ti de : Option String) (pr : Nat) (cn : Option String) (w : Bool) :
    (upload_body r s vp ti de pr cn w).2.1 = s := by
  simp only [upload_body]
  split <;> rfl

lemma upload_body_no_auth (r : Remote) (s : Session) (vp : String)
    (ti de : Option String) (pr : Nat) (cn : Option String) (w : Bool) :
    countEv isAuthReq (upload_body r s vp ti de pr cn w).2.2 = 0 := by
  simp only [upload_body]
  split <;> simp [countEv, isAuthReq]

lemma upload_body_bearer (r : Remote) (s : Session) (vp : String)
    (ti de : Option String) (pr : Nat) (cn : Option String) (w : Bool)
    (h : s.token.isSome = true) :
    uploadReqsBearerSet (upload_body r s vp ti de pr cn w).2.2 = true := by
  simp only [upload_body]
  split <;> simp [uploadReqsBearerSet, h]

lemma upload_body_channelIds (r : Remote) (s : Session) (vp : String)
    (ti de : Option String) (pr : Nat) (cn : Option String) (w : Bool) :
    reqChannelIds (upload_body r s vp ti de pr cn w).2.2 = [resolveChannelId s cn] := by
  simp only [upload_body]
  split <;> simp [reqChannelIds]

lemma upload_body_paths (r : Remote) (s : Session) (vp : String)
    (ti de : Option String) (pr : Nat) (cn : Option String) (w : Bool) :
    uploadReqPaths (upload_body r s vp ti de pr cn w).2.2 = [(vp, w)] := by
  simp only [upload_body]
  split <;> simp [uploadReqPaths]

lemma upload_body_openFile (r : Remote) (s : Session) (vp : String)
    (ti de : Option String) (pr : Nat) (cn : Option String) (w : Bool) :
    Event.openFile vp ∈ (upload_body r s vp ti de pr cn w).2.2 := by
  simp only [upload_body]
  split <;> simp

lemma upload_body_no_close (r : Remote) (s : Session) (vp : String)
    (ti de : Option String) (pr : Nat) (cn : Option String) (w : Bool)
    (p : String) :
    Event.closeFile p ∉ (upload_body r s vp ti de pr cn w).2.2 := by
  simp only [upload_body]
  split <;> simp

lemma upload_body_ok (r : Remote) (s : Session) (vp : String)
    (ti de : Option String) (pr : Nat) (cn : Option String) (w : Bool)
    (h : uploadErrOf (r.uploadFor vp) = none) :
    (upload_body r s vp ti de pr cn w).1 = Except.ok (r.uploadFor vp).doc := by
  simp only [upload_body]
  split <;> simp_all

lemma upload_body_err (r : Remote) (s : Session) (vp : String)
    (ti de : Option String) (pr : Nat) (cn : Option String) (w : Bool)
    (e : Err) (h : uploadErrOf (r.uploadFor vp) = some e) :
    (upload_body r s vp ti de pr cn w).1 = Except.error e := by
  simp only [upload_body]
  split <;> simp_all

lemma upload_body_server_response (r : Remote) (s : Session) (vp : String)
    (ti de : Option String) (pr : Nat) (cn : Option String) (w : Bool)
    (st : Nat) (h : uploadErrOf (r.uploadFor vp) = some (Err.httpError st)) :
    Event.printServerResponse (r.uploadFor vp).text ∈
      (upload_body r s vp ti de pr cn w).2.2 := by
  simp only [upload_body]
  split <;> simp_all

/-- On a 409 conflict the create call swallows the error: it returns `None`
and leaves the session (in particular the channel cache) untouched. -/
lemma create_body_conflict (r : Remote) (s : Session) (nm : String)
    (dn ds : Option String) (h : r.createStatus = 409) :
    create_body r s nm dn ds =
      (Except.ok none, s,
        [Event.reqCreateChannel s.token nm (orElseStr dn nm) (truthyOpt ds),
         Event.printConflict nm]) := by
  simp only [create_body]
  rw [h]
  simp [isHttpError]

lemma create_body_other_err (r : Remote) (s : Session) (nm : String)
    (dn ds : Option String) (h1 : isHttpError r.createStatus = true)
    (h2 : r.createStatus ≠ 409) :
    create_body r s nm dn ds =
      (Except.error (Err.httpError r.createStatus), s,
        [Event.reqCreateChannel s.token nm (orElseStr dn nm) (truthyOpt ds)]) := by
  simp only [create_body]
  simp [h1, h2]

lemma create_body_success (r : Remote) (s : Session) (nm : String)
    (dn ds : Option String) (h : isHttpError r.createStatus = false) :
    create_body r s nm dn ds =
      (Except.ok (some r.createdChannelId),
        { s with channels := dictInsert s.channels nm r.createdChannelId },
        [Event.reqCreateChannel s.token nm (orElseStr dn nm) (truthyOpt ds),
         Event.printCreatedChannel nm]) := by
  simp only [create_body]
  simp [h]

lemma create_body_no_auth (r : Remote) (s : Session) (nm : String)
    (dn ds : Option String) :
    countEv isAuthReq (create_body r s nm dn ds).2.2 = 0 := by
  simp only [create_body]
  split <;> [split; skip] <;> simp [countEv, isAuthReq]

lemma create_body_bearer (r : Remote) (s : Session) (nm : String)
    (dn ds : Option String) :
    uploadReqsBearerSet (create_body r s nm dn ds).2.2 = true := by
  simp only [create_body]
  split <;> [split; skip] <;> simp [uploadReqsBearerSet]

/-! ### Wrapper lemmas: authenticate-on-demand -/

/-- With a truthy token, `upload_video` is just the upload proper. -/
lemma upload_video_noLogin (r : Remote) (s : Session) (vp : String)
    (ti de : Option String) (pr : Nat) (cn : Option String) (w : Bool)
    (h : tokenFalsy s = false) :
    upload_video r s vp ti de pr cn w = upload_body r s vp ti de pr cn w := by
  simp [upload_video, h]

/-- With a truthy token, `create_channel` is just the create proper. -/
lemma create_channel_noLogin (r : Remote) (s : Session) (nm : String)
    (dn ds : Option String) (h : tokenFalsy s = false) :
    create_channel r s nm dn ds = create_body r s nm dn ds := by
  simp [create_channel, h]

/-- With a falsy token, the trace of `upload_video` is the `login` trace,
followed (only when `login` succeeded) by the upload proper on the
post-login session. -/
lemma upload_video_trace_eq (r : Remote) (s : Session) (vp : String)
    (ti de : Option String) (pr : Nat) (cn : Option String) (w : Bool)
    (h : tokenFalsy s = true) :
    (upload_video r s vp ti de pr cn w).2.2 = (login r s).2.2 ∨
    ((upload_video r s vp ti de pr cn w).2.2 =
        (login r s).2.2 ++ (upload_body r (login r s).2.1 vp ti de pr cn w).2.2 ∧
      (login r s).1 = Except.ok ()) := by
  rcases hl : login r s with ⟨res, s', tr⟩
  cases res <;> simp [upload_video, h, hl]

/-- With a falsy token, the trace of `create_channel` is the `login` trace,
followed (only when `login` succeeded) by the create proper. -/
lemma create_channel_trace_eq (r : Remote) (s : Session) (nm : String)
    (dn ds : Option String) (h : tokenFalsy s = true) :
    (create_channel r s nm dn ds).2.2 = (login r s).2.2 ∨
    ((create_channel r s nm dn ds).2.2 =
        (login r s).2.2 ++ (create_body r (login r s).2.1 nm dn ds).2.2 ∧
      (login r s).1 = Except.ok ()) := by
  rcases hl : login r s with ⟨res, s', tr⟩
  cases res <;> simp [create_channel, h, hl]

lemma countEv_append (p : Event → Bool) (a b : List Event) :
    countEv p (a ++ b) = countEv p a + countEv p b := by
  simp [countEv, List.filter_append]

lemma uploadReqsBearerSet_append (a b : List Event) :
    uploadReqsBearerSet (a ++ b) = (uploadReqsBearerSet a && uploadReqsBearerSet b) := by
  simp [uploadReqsBearerSet, List.all_append]

/-! ### Lemmas about the channel dictionary -/

lemma dictInsert_of_not_key (d : List (String × Nat)) (k : String) (v : Nat)
    (h : ∀ p ∈ d, p.1 ≠ k) : dictInsert d k v = d ++ [(k, v)] := by
  unfold dictInsert
  have hany : d.any (fun p => p.1 == k) = false := by
    simp only [List.any_eq_false, beq_iff_eq]
    exact h
  rw [hany]
  simp

lemma dictFromChannels_foldl (cs : List Channel) (d : List (String × Nat))
    (hnd : (cs.map Channel.name).Nodup)
    (hd : ∀ c ∈ cs, ∀ p ∈ d, p.1 ≠ c.name) :
    cs.foldl (fun d c => dictInsert d c.name c.id) d =
      d ++ cs.map (fun c => (c.name, c.id)) := by
  induction cs generalizing d with
  | nil => simp
  | cons c cs ih =>
      have h1 : ∀ p ∈ d, p.1 ≠ c.name := fun p hp => hd c (by simp) p hp
      rw [List.foldl_cons, dictInsert_of_not_key d c.name c.id h1]
      have hnd' : (cs.map Channel.name).Nodup := (List.nodup_cons.mp hnd).2
      have hhead : c.name ∉ cs.map Channel.name := (List.nodup_cons.mp hnd).1
      have hd2 : ∀ c' ∈ cs, ∀ p ∈ d ++ [(c.name, c.id)], p.1 ≠ c'.name := by
        intro c' hc' p hp
        rcases List.mem_append.mp hp with hp | hp
        · exact hd c' (List.mem_cons_of_mem _ hc') p hp
        · have hp' : p = (c.name, c.id) := by simpa using hp
          rw [hp']
          intro hne
          have hne' : c.name = c'.name := hne
          exact hhead (by rw [hne']; exact List.mem_map_of_mem Channel.name hc')
      rw [ih (d ++ [(c.name, c.id)]) hnd' hd2]
      simp

/-- With pairwise-distinct channel names, the dict comprehension is the
association list of the channels in listed order. -/
lemma dictFromChannels_eq (cs : List Channel)
    (hnd : (cs.map Channel.name).Nodup) :
    dictFromChannels cs = cs.map (fun c => (c.name, c.id)) := by
  have := dictFromChannels_foldl cs [] hnd (by simp)
  simpa [dictFromChannels] using this

lemma dictGet_map_of_mem (cs : List Channel)
    (hnd : (cs.map Channel.name).Nodup) (c : Channel) (hc : c ∈ cs) :
    dictGet (cs.map (fun c => (c.name, c.id))) c.name = some c.id := by
  induction cs with
  | nil => cases hc
  | cons a cs ih =>
      rcases List.mem_cons.mp hc with rfl | hc'
      · simp [dictGet]
      · have hhead : a.name ∉ cs.map Channel.name := (List.nodup_cons.mp hnd).1
        have hne : (a.name == c.name) = false := by
          simp only [beq_eq_false_iff_ne]
          intro hne
          exact hhead (hne ▸ List.mem_map_of_mem Channel.name hc')
        have ih' := ih (List.nodup_cons.mp hnd).2 hc'
        simpa [dictGet, List.find?, hne] using ih'

lemma upload_body_no_getClient (r : Remote) (s : Session) (vp : String)
    (ti de : Option String) (pr : Nat) (cn : Option String) (w : Bool) :
    countEv isGetClient (upload_body r s vp ti de pr cn w).2.2 = 0 := by
  simp only [upload_body]
  split <;> simp [countEv, isGetClient]

lemma create_body_no_getClient (r : Remote) (s : Session) (nm : String)
    (dn ds : Option String) :
    countEv isGetClient (create_body r s nm dn ds).2.2 = 0 := by
  simp only [create_body]
  split <;> [split; skip] <;> simp [countEv, isGetClient]

/-! ### Concrete sample environments used by the witnesses -/

/-- A remote where every call succeeds and the user owns two channels. -/
def remoteOk : Remote :=
  { clientStatus := 200, client_id := "cid", client_secret := "sec",
    tokenStatus := 200, access_token := "tok", meStatus := 200,
    videoChannels := [Channel.mk "main" 7, Channel.mk "alt" 9],
    createStatus := 200, createdChannelId := 11,
    uploadFor := fun _ => UploadResp.mk 200 "ok" 42 }

/-- Same remote but channel creation answers 409 (name already taken). -/
def remoteConflict : Remote := { remoteOk with createStatus := 409 }

/-- Same remote but channel creation answers 500. -/
def remoteCreate500 : Remote := { remoteOk with createStatus := 500 }

/-- Same remote but the authenticated user owns no channel. -/
def remoteNoChannels : Remote := { remoteOk with videoChannels := [] }

/-- Same remote but every upload answers the given status. -/
def remoteUpload (st : Nat) : Remote :=
  { remoteOk with uploadFor := fun _ => UploadResp.mk st "boom" 0 }

/-- Same remote but the upload of `d/b.mp4` fails with a 500. -/
def remoteBulk : Remote :=
  { remoteOk with uploadFor := fun p =>
      if p == "d/b.mp4" then UploadResp.mk 500 "boom" 0 else UploadResp.mk 200 "ok" 42 }

/-- A freshly constructed session: no token yet. -/
def sessionFresh : Session := mkUploader "https://pt.example/" "alice" "pw"

/-- A session that already authenticated (token set, channels cached). -/
def sessionAuthed : Session :=
  { host := "https://pt.example", username := "alice", password := "pw",
    token := some "tok", channel_id := some 7,
    channels := [("main", 7), ("alt", 9)] }

/-! ### Claims -/

/-- C6: a successful authentication against a profile listing N ≥ 1 channels
with pairwise-distinct names sets the default channel id to the id of the
first listed channel and caches exactly one name-to-id entry per owned
channel (N entries in total). -/
theorem c6_login_first_channel_and_cache (r : Remote) (s : Session)
    (c : Channel) (cs : List Channel)
    (hch : r.videoChannels = c :: cs)
    (hnd : (r.videoChannels.map Channel.name).Nodup)
    (h1 : isHttpError r.clientStatus = false)
    (h2 : isHttpError r.tokenStatus = false)
    (h3 : isHttpError r.meStatus = false) :
    (login r s).1 = Except.ok () ∧
    (login r s).2.1.token = some r.access_token ∧
    (login r s).2.1.channel_id = some c.id ∧
    (login r s).2.1.channels.length = r.videoChannels.length ∧
    ∀ ch ∈ r.videoChannels, dictGet (login r s).2.1.channels ch.name = some ch.id := by
  have hnd' : ((c :: cs).map Channel.name).Nodup := by rw [← hch]; exact hnd
  have hL : login r s =
      (Except.ok (),
        Session.mk s.host s.username s.password (some r.access_token)
          (some c.id) (dictFromChannels (c :: cs)),
        [Event.reqGetClient, Event.reqPostToken, Event.reqGetMe,
         Event.printAvailableChannels (dictFromChannels (c :: cs))]) := by
    simp [login, h1, h2, h3, hch]
  refine ⟨by rw [hL], by rw [hL], by rw [hL], ?_, ?_⟩
  · rw [hL]
    show (dictFromChannels (c :: cs)).length = r.videoChannels.length
    rw [dictFromChannels_eq _ hnd', List.length_map, hch]
  · intro ch hmem
    rw [hL]
    show dictGet (dictFromChannels (c :: cs)) ch.name = some ch.id
    rw [dictFromChannels_eq _ hnd']
    exact dictGet_map_of_mem _ hnd' ch (by rw [← hch]; exact hmem)

/-- Witness for C6 at a concrete remote with two distinct channels. -/
theorem c6_witness :
    remoteOk.videoChannels = Channel.mk "main" 7 :: [Channel.mk "alt" 9] ∧
    (remoteOk.videoChannels.map Channel.name).Nodup ∧
    isHttpError remoteOk.clientStatus = false ∧
    isHttpError remoteOk.tokenStatus = false ∧
    isHttpError remoteOk.meStatus = false ∧
    ((login remoteOk sessionFresh).1 = Except.ok () ∧
      (login remoteOk sessionFresh).2.1.token = some remoteOk.access_token ∧
      (login remoteOk sessionFresh).2.1.channel_id = some (Channel.mk "main" 7).id ∧
      (login remoteOk sessionFresh).2.1.channels.length =
        remoteOk.videoChannels.length ∧
      ∀ ch ∈ remoteOk.videoChannels,
        dictGet (login remoteOk sessionFresh).2.1.channels ch.name = some ch.id) :=
  ⟨rfl, by decide, by decide, by decide, by decide,
    c6_login_first_channel_and_cache remoteOk sessionFresh
      (Channel.mk "main" 7) [Channel.mk "alt" 9] rfl (by decide)
      (by decide) (by decide) (by decide)⟩

lemma upload_video_auth_props (r : Remote) (s : Session) (vp : String)
    (ti de : Option String) (pr : Nat) (cn : Option String) (w : Bool)
    (h : tokenFalsy s = true) :
    countEv isGetClient (upload_video r s vp ti de pr cn w).2.2 = 1 ∧
    countEv isAuthReq (upload_video r s vp ti de pr cn w).2.2 ≤ 3 ∧
    (upload_video r s vp ti de pr cn w).2.2.take (login r s).2.2.length
      = (login r s).2.2 ∧
    countEv isAuthReq
      ((upload_video r s vp ti de pr cn w).2.2.drop (login r s).2.2.length) = 0 ∧
    uploadReqsBearerSet (upload_video r s vp ti de pr cn w).2.2 = true := by
  rcases upload_video_trace_eq r s vp ti de pr cn w h with hu | ⟨hu, hok⟩
  · rw [hu]
    exact ⟨login_count_getClient r s, login_count_auth_le r s, List.take_length _,
      by rw [List.drop_length]; rfl, login_bearer r s⟩
  · rw [hu]
    refine ⟨?_, ?_, ?_, ?_, ?_⟩
    · rw [countEv_append, login_count_getClient, upload_body_no_getClient]
    · rw [countEv_append, upload_body_no_auth]
      simpa using login_count_auth_le r s
    · exact List.take_left _ _
    · rw [List.drop_left]
      exact upload_body_no_auth r _ vp ti de pr cn w
    · rw [uploadReqsBearerSet_append, login_bearer,
        upload_body_bearer r _ vp ti de pr cn w (by rw [login_ok_token r s hok]; rfl)]
      rfl

lemma create_channel_auth_props (r : Remote) (s : Session) (nm : String)
    (dn ds : Option String) (h : tokenFalsy s = true) :
    countEv isGetClient (create_channel r s nm dn ds).2.2 = 1 ∧
    countEv isAuthReq (create_channel r s nm dn ds).2.2 ≤ 3 ∧
    (create_channel r s nm dn ds).2.2.take (login r s).2.2.length
      = (login r s).2.2 ∧
    countEv isAuthReq
      ((create_channel r s nm dn ds).2.2.drop (login r s).2.2.length) = 0 ∧
    uploadReqsBearerSet (create_channel r s nm dn ds).2.2 = true := by
  rcases create_channel_trace_eq r s nm dn ds h with hc | ⟨hc, hok⟩
  · rw [hc]
    exact ⟨login_count_getClient r s, login_count_auth_le r s, List.take_length _,
      by rw [List.drop_length]; rfl, login_bearer r s⟩
  · rw [hc]
    refine ⟨?_, ?_, ?_, ?_, ?_⟩
    · rw [countEv_append, login_count_getClient, create_body_no_getClient]
    · rw [countEv_append, create_body_no_auth]
      simpa using login_count_auth_le r s
    · exact List.take_left _ _
    · rw [List.drop_left]
      exact create_body_no_auth r _ nm dn ds
    · rw [uploadReqsBearerSet_append, login_bearer, create_body_bearer]
      rfl

/-- C1: on a session with no (truthy) token, both `upload_video` and
`create_channel` first run exactly one authentication sequence — the trace
begins with the full `login` trace (which contains one client-credential
fetch and no operation request) and contains no further authentication
request after it — and every upload request ever issued carries a bearer
token. -/
theorem c1_authenticate_on_demand (r : Remote) (s : Session) (vp : String)
    (ti de : Option String) (pr : Nat) (cn : Option String) (w : Bool)
    (nm : String) (dn ds : Option String) (h : tokenFalsy s = true) :
    countEv isGetClient (upload_video r s vp ti de pr cn w).2.2 = 1 ∧
    countEv isAuthReq (upload_video r s vp ti de pr cn w).2.2 ≤ 3 ∧
    (upload_video r s vp ti de pr cn w).2.2.take (login r s).2.2.length
      = (login r s).2.2 ∧
    countEv isAuthReq
      ((upload_video r s vp ti de pr cn w).2.2.drop (login r s).2.2.length) = 0 ∧
    countEv isOpReq (login r s).2.2 = 0 ∧
    uploadReqsBearerSet (upload_video r s vp ti de pr cn w).2.2 = true ∧
    countEv isGetClient (create_channel r s nm dn ds).2.2 = 1 ∧
    countEv isAuthReq (create_channel r s nm dn ds).2.2 ≤ 3 ∧
    (create_channel r s nm dn ds).2.2.take (login r s).2.2.length
      = (login r s).2.2 ∧
    countEv isAuthReq
      ((create_channel r s nm dn ds).2.2.drop (login r s).2.2.length) = 0 ∧
    uploadReqsBearerSet (create_channel r s nm dn ds).2.2 = true := by
  obtain ⟨u1, u2, u3, u4, u5⟩ := upload_video_auth_props r s vp ti de pr cn w h
  obtain ⟨c1, c2, c3, c4, c5⟩ := create_channel_auth_props r s nm dn ds h
  exact ⟨u1, u2, u3, u4, login_no_op_req r s, u5, c1, c2, c3, c4, c5⟩

/-- Witness for C1: a fresh session against a fully working remote. -/
theorem c1_witness :
    tokenFalsy sessionFresh = true ∧
    countEv isGetClient
      (upload_video remoteOk sessionFresh "d/a.mp4" none none 1 none true).2.2 = 1 ∧
    countEv isGetClient
      (create_channel remoteOk sessionFresh "ch" none none).2.2 = 1 ∧
    uploadReqsBearerSet
      (upload_video remoteOk sessionFresh "d/a.mp4" none none 1 none true).2.2 = true :=
  have hfull := c1_authenticate_on_demand remoteOk sessionFresh "d/a.mp4"
    none none 1 none true "ch" none none rfl
  ⟨rfl, hfull.1, hfull.2.2.2.2.2.2.1, hfull.2.2.2.2.2.1⟩

/-- C2 counterexample: against a remote whose profile lists zero channels,
`login` fails with `noChannels`, yet the session keeps the freshly stored
token; a subsequent upload on that same session runs no authentication
sequence at all and even succeeds using that token — it does not behave
as a session holding no token (contrast C1: a tokenless session runs
exactly one authentication sequence). -/
theorem c2_counterexample :
    (login remoteNoChannels sessionFresh).1 = Except.error Err.noChannels ∧
    (login remoteNoChannels sessionFresh).2.1.token = some "tok" ∧
    tokenFalsy (login remoteNoChannels sessionFresh).2.1 = false ∧
    countEv isAuthReq
      (upload_video remoteNoChannels (login remoteNoChannels sessionFresh).2.1
        "d/a.mp4" none none 1 none true).2.2 = 0 ∧
    (upload_video remoteNoChannels (login remoteNoChannels sessionFresh).2.1
      "d/a.mp4" none none 1 none true).1 = Except.ok 42 := by
  refine ⟨rfl, rfl, rfl, rfl, rfl⟩

/-- C2 (amended): authentication against a profile with zero channels fails
with the `noChannels` error, but the access token has already been stored
on the session before the channel check, so (whenever that token is a
non-empty string) a subsequent upload or channel-create on the same
session does not re-authenticate and proceeds with that token. -/
theorem c2_amended_token_survives_noChannels (r : Remote) (s : Session)
    (vp : String) (ti de : Option String) (pr : Nat) (cn : Option String)
    (w : Bool) (nm : String) (dn ds : Option String)
    (h1 : isHttpError r.clientStatus = false)
    (h2 : isHttpError r.tokenStatus = false)
    (h3 : isHttpError r.meStatus = false)
    (hch : r.videoChannels = [])
    (htok : r.access_token ≠ "") :
    (login r s).1 = Except.error Err.noChannels ∧
    (login r s).2.1.token = some r.access_token ∧
    countEv isAuthReq
      (upload_video r (login r s).2.1 vp ti de pr cn w).2.2 = 0 ∧
    countEv isAuthReq
      (create_channel r (login r s).2.1 nm dn ds).2.2 = 0 := by
  have hL : login r s =
      (Except.error Err.noChannels,
        Session.mk s.host s.username s.password (some r.access_token)
          s.channel_id s.channels,
        [Event.reqGetClient, Event.reqPostToken, Event.reqGetMe]) := by
    simp [login, h1, h2, h3, hch]
  have hfalsy : tokenFalsy (login r s).2.1 = false := by
    rw [hL]
    simp [tokenFalsy, strTruthy, htok]
  refine ⟨by rw [hL], by rw [hL], ?_, ?_⟩
  · rw [upload_video_noLogin r _ vp ti de pr cn w hfalsy]
    exact upload_body_no_auth r _ vp ti de pr cn w
  · rw [create_channel_noLogin r _ nm dn ds hfalsy]
    exact create_body_no_auth r _ nm dn ds

/-- Witness for the amended C2 at the concrete zero-channel remote. -/
theorem c2_amended_witness :
    isHttpError remoteNoChannels.clientStatus = false ∧
    isHttpError remoteNoChannels.tokenStatus = false ∧
    isHttpError remoteNoChannels.meStatus = false ∧
    remoteNoChannels.videoChannels = [] ∧
    remoteNoChannels.access_token ≠ "" ∧
    ((login remoteNoChannels sessionFresh).1 = Except.error Err.noChannels ∧
      (login remoteNoChannels sessionFresh).2.1.token =
        some remoteNoChannels.access_token ∧
      countEv isAuthReq
        (upload_video remoteNoChannels (login remoteNoChannels sessionFresh).2.1
          "d/a.mp4" none none 1 none true).2.2 = 0 ∧
      countEv isAuthReq
        (create_channel remoteNoChannels (login remoteNoChannels sessionFresh).2.1
          "ch" none none).2.2 = 0) :=
  ⟨by decide, by decide, by decide, rfl, by decide,
    c2_amended_token_survives_noChannels remoteNoChannels sessionFresh
      "d/a.mp4" none none 1 none true "ch" none none
      (by decide) (by decide) (by decide) rfl (by decide)⟩

/-- C4: with a token present, a 409 conflict on channel creation is
swallowed — the call returns without an error and the whole session (in
particular the name-to-id cache) is unchanged — while any other
`raise_for_status` failure status propagates as that HTTP error. -/
theorem c4_conflict_swallowed_others_propagate (r : Remote) (s : Session)
    (nm : String) (dn ds : Option String) (h : tokenFalsy s = false) :
    (r.createStatus = 409 →
      (create_channel r s nm dn ds).1 = Except.ok none ∧
      (create_channel r s nm dn ds).2.1 = s) ∧
    (isHttpError r.createStatus = true → r.createStatus ≠ 409 →
      (create_channel r s nm dn ds).1 =
        Except.error (Err.httpError r.createStatus) ∧
      (create_channel r s nm dn ds).2.1 = s) := by
  rw [create_channel_noLogin r s nm dn ds h]
  constructor
  · intro h409
    rw [create_body_conflict r s nm dn ds h409]
    exact ⟨rfl, rfl⟩
  · intro hh hne
    rw [create_body_other_err r s nm dn ds hh hne]
    exact ⟨rfl, rfl⟩

/-- Witness for C4: a 409 remote leaves the cache alone, a 500 remote
propagates the HTTP error. -/
theorem c4_witness :
    tokenFalsy sessionAuthed = false ∧
    remoteConflict.createStatus = 409 ∧
    ((create_channel remoteConflict sessionAuthed "main" none none).1 =
        Except.ok none ∧
      (create_channel remoteConflict sessionAuthed "main" none none).2.1 =
        sessionAuthed) ∧
    isHttpError remoteCreate500.createStatus = true ∧
    remoteCreate500.createStatus ≠ 409 ∧
    ((create_channel remoteCreate500 sessionAuthed "main" none none).1 =
        Except.error (Err.httpError remoteCreate500.createStatus) ∧
      (create_channel remoteCreate500 sessionAuthed "main" none none).2.1 =
        sessionAuthed) :=
  ⟨by decide, rfl,
    (c4_conflict_swallowed_others_propagate remoteConflict sessionAuthed
      "main" none none (by decide)).1 rfl,
    by decide, by decide,
    (c4_conflict_swallowed_others_propagate remoteCreate500 sessionAuthed
      "main" none none (by decide)).2 (by decide) (by decide)⟩

/-- C10: on a 409 conflict, `create_channel` returns `None` — the caller
gets no channel document, hence no way to read the existing channel's id
from the return value. -/
theorem c10_conflict_returns_no_document (r : Remote) (s : Session)
    (nm : String) (dn ds : Option String) (h : tokenFalsy s = false)
    (h409 : r.createStatus = 409) :
    (create_channel r s nm dn ds).1 = Except.ok none := by
  rw [create_channel_noLogin r s nm dn ds h,
    create_body_conflict r s nm dn ds h409]

/-- Witness for C10 at the concrete 409 remote. -/
theorem c10_witness :
    tokenFalsy sessionAuthed = false ∧
    remoteConflict.createStatus = 409 ∧
    (create_channel remoteConflict sessionAuthed "main" none none).1 =
      Except.ok none :=
  ⟨by decide, rfl,
    c10_conflict_returns_no_document remoteConflict sessionAuthed "main"
      none none (by decide) rfl⟩

/-- C5: with a token present, upload status 415 maps to the
format-not-supported error, 413 to quota-exceeded, 422 to file-unreadable
(three pairwise-distinct errors), and any other `raise_for_status` failure
status maps to the generic HTTP error while the diagnostic printed
includes the response body text. -/
theorem c5_upload_status_mapping (r : Remote) (s : Session) (vp : String)
    (ti de : Option String) (pr : Nat) (cn : Option String) (w : Bool)
    (h : tokenFalsy s = false) :
    ((r.uploadFor vp).status = 415 →
      (upload_video r s vp ti de pr cn w).1 =
        Except.error Err.formatNotSupported) ∧
    ((r.uploadFor vp).status = 413 →
      (upload_video r s vp ti de pr cn w).1 = Except.error Err.quotaExceeded) ∧
    ((r.uploadFor vp).status = 422 →
      (upload_video r s vp ti de pr cn w).1 = Except.error Err.fileUnreadable) ∧
    (Err.formatNotSupported ≠ Err.quotaExceeded ∧
      Err.formatNotSupported ≠ Err.fileUnreadable ∧
      Err.quotaExceeded ≠ Err.fileUnreadable) ∧
    (isHttpError (r.uploadFor vp).status = true →
      (r.uploadFor vp).status ≠ 415 → (r.uploadFor vp).status ≠ 413 →
      (r.uploadFor vp).status ≠ 422 →
      (upload_video r s vp ti de pr cn w).1 =
        Except.error (Err.httpError (r.uploadFor vp).status) ∧
      Event.printServerResponse (r.uploadFor vp).text ∈
        (upload_video r s vp ti de pr cn w).2.2) := by
  rw [upload_video_noLogin r s vp ti de pr cn w h]
  refine ⟨?_, ?_, ?_, by decide, ?_⟩
  · intro hst
    have he : uploadErrOf (r.uploadFor vp) = some Err.formatNotSupported := by
      simp [uploadErrOf, hst]
    exact upload_body_err r s vp ti de pr cn w _ he
  · intro hst
    have he : uploadErrOf (r.uploadFor vp) = some Err.quotaExceeded := by
      simp [uploadErrOf, hst]
    exact upload_body_err r s vp ti de pr cn w _ he
  · intro hst
    have he : uploadErrOf (r.uploadFor vp) = some Err.fileUnreadable := by
      simp [uploadErrOf, hst]
    exact upload_body_err r s vp ti de pr cn w _ he
  · intro hh h415 h413 h422
    have he : uploadErrOf (r.uploadFor vp) =
        some (Err.httpError (r.uploadFor vp).status) := by
      simp [uploadErrOf, hh, h415, h413, h422]
    exact ⟨upload_body_err r s vp ti de pr cn w _ he,
      upload_body_server_response r s vp ti de pr cn w _ he⟩

/-- Witness for C5 at remotes answering 415, 413, 422 and 500. -/
theorem c5_witness :
    tokenFalsy sessionAuthed = false ∧
    (upload_video (remoteUpload 415) sessionAuthed "d/a.mp4" none none 1
        none true).1 = Except.error Err.formatNotSupported ∧
    (upload_video (remoteUpload 413) sessionAuthed "d/a.mp4" none none 1
        none true).1 = Except.error Err.quotaExceeded ∧
    (upload_video (remoteUpload 422) sessionAuthed "d/a.mp4" none none 1
        none true).1 = Except.error Err.fileUnreadable ∧
    (upload_video (remoteUpload 500) sessionAuthed "d/a.mp4" none none 1
        none true).1 = Except.error (Err.httpError 500) ∧
    Event.printServerResponse "boom" ∈
      (upload_video (remoteUpload 500) sessionAuthed "d/a.mp4" none none 1
        none true).2.2 :=
  have h500 := (c5_upload_status_mapping (remoteUpload 500) sessionAuthed
    "d/a.mp4" none none 1 none true (by decide)).2.2.2.2
    (by decide) (by decide) (by decide) (by decide)
  ⟨by decide,
    (c5_upload_status_mapping (remoteUpload 415) sessionAuthed "d/a.mp4"
      none none 1 none true (by decide)).1 rfl,
    (c5_upload_status_mapping (remoteUpload 413) sessionAuthed "d/a.mp4"
      none none 1 none true (by decide)).2.1 rfl,
    (c5_upload_status_mapping (remoteUpload 422) sessionAuthed "d/a.mp4"
      none none 1 none true (by decide)).2.2.1 rfl,
    h500.1, h500.2⟩

/-- C7: with a token present, the channel id sent in the (single) upload
request is the cache entry for the given channel name when present, the
session's default channel id when the name is absent from the cache (and
the request is still issued — no error), and the default channel id when
no name is given. -/
theorem c7_channel_resolution (r : Remote) (s : Session) (vp : String)
    (ti de : Option String) (pr : Nat) (w : Bool)
    (h : tokenFalsy s = false) :
    (∀ cn i, cn ≠ "" → dictGet s.channels cn = some i →
      reqChannelIds (upload_video r s vp ti de pr (some cn) w).2.2 = [some i]) ∧
    (∀ cn, cn ≠ "" → dictGet s.channels cn = none →
      reqChannelIds (upload_video r s vp ti de pr (some cn) w).2.2 =
        [s.channel_id]) ∧
    reqChannelIds (upload_video r s vp ti de pr none w).2.2 = [s.channel_id] := by
  refine ⟨?_, ?_, ?_⟩
  · intro cn i hne hget
    rw [upload_video_noLogin r s vp ti de pr (some cn) w h,
      upload_body_channelIds]
    simp [resolveChannelId, hne, hget]
  · intro cn hne hget
    rw [upload_video_noLogin r s vp ti de pr (some cn) w h,
      upload_body_channelIds]
    simp [resolveChannelId, hne, hget]
  · rw [upload_video_noLogin r s vp ti de pr none w h, upload_body_channelIds]
    simp [resolveChannelId]

/-- Witness for C7: cached name "alt" resolves to 9, uncached name "ghost"
falls back to the default id 7, no name uses the default id 7. -/
theorem c7_witness :
    tokenFalsy sessionAuthed = false ∧
    dictGet sessionAuthed.channels "alt" = some 9 ∧
    reqChannelIds (upload_video remoteOk sessionAuthed "d/a.mp4" none none 1
      (some "alt") true).2.2 = [some 9] ∧
    dictGet sessionAuthed.channels "ghost" = none ∧
    reqChannelIds (upload_video remoteOk sessionAuthed "d/a.mp4" none none 1
      (some "ghost") true).2.2 = [sessionAuthed.channel_id] ∧
    reqChannelIds (upload_video remoteOk sessionAuthed "d/a.mp4" none none 1
      none true).2.2 = [sessionAuthed.channel_id] :=
  have hc7 := c7_channel_resolution remoteOk sessionAuthed "d/a.mp4"
    none none 1 true (by decide)
  ⟨by decide, by decide,
    hc7.1 "alt" 9 (by decide) (by decide),
    by decide,
    hc7.2.1 "ghost" (by decide) (by decide),
    hc7.2.2⟩

/-- C9: the claim says the opened file handle is closed on every exit path;
the source opens the file (line 121) but never closes it — there is no
`with` block, `finally`, or `close()` call on any path.  Evaluated on a
succeeding upload and on a failing (500) upload: the handle is opened and
never closed either way. -/
theorem c9_file_handle_never_closed :
    Event.openFile "d/a.mp4" ∈
      (upload_video remoteOk sessionAuthed "d/a.mp4" none none 1 none
        true).2.2 ∧
    Event.closeFile "d/a.mp4" ∉
      (upload_video remoteOk sessionAuthed "d/a.mp4" none none 1 none
        true).2.2 ∧
    Event.openFile "d/a.mp4" ∈
      (upload_video (remoteUpload 500) sessionAuthed "d/a.mp4" none none 1
        none true).2.2 ∧
    Event.closeFile "d/a.mp4" ∉
      (upload_video (remoteUpload 500) sessionAuthed "d/a.mp4" none none 1
        none true).2.2 := by
  refine ⟨by decide, by decide, by decide, by decide⟩

/-! ### Bulk upload: C3 and C8 -/

/-- The extension test of the bulk loop (line 158) for one directory entry. -/
def matchesExt (video_dir name : String) : Bool :=
  video_extensions.contains (strLower (pySuffix (video_dir ++ "/" ++ name)))

/-- The per-file outcome of one upload attempt: the returned document on
success, nothing when the attempt raises. -/
def uploadOutcome (r : Remote) (path : String) : Option Nat :=
  match uploadErrOf (r.uploadFor path) with
  | none => some (r.uploadFor path).doc
  | some _ => none

/-- With a token present, an upload run is fully characterised: the result
follows the status mapping, the session is unchanged, the trace is the
upload proper's trace. -/
lemma upload_video_char (r : Remote) (s : Session) (vp : String)
    (ti de : Option String) (pr : Nat) (cn : Option String) (w : Bool)
    (h : tokenFalsy s = false) :
    upload_video r s vp ti de pr cn w =
      ((match uploadErrOf (r.uploadFor vp) with
        | none => Except.ok (r.uploadFor vp).doc
        | some e => Except.error e),
        s, (upload_body r s vp ti de pr cn w).2.2) := by
  rw [upload_video_noLogin r s vp ti de pr cn w h]
  rcases hb : upload_body r s vp ti de pr cn w with ⟨res, s', tr⟩
  have hs' : s' = s := by
    have hx := upload_body_session r s vp ti de pr cn w
    rw [hb] at hx
    exact hx
  rw [hs'] at hb ⊢
  cases he : uploadErrOf (r.uploadFor vp) with
  | none =>
      have h1 := upload_body_ok r s vp ti de pr cn w he
      rw [hb] at h1
      have h1' : res = Except.ok (r.uploadFor vp).doc := h1
      rw [h1']
  | some e =>
      have h1 := upload_body_err r s vp ti de pr cn w e he
      rw [hb] at h1
      have h1' : res = Except.error e := h1
      rw [h1']

lemma uploadReqPaths_append (a b : List Event) :
    uploadReqPaths (a ++ b) = uploadReqPaths a ++ uploadReqPaths b := by
  simp [uploadReqPaths, List.filterMap_append]

lemma uploadReqPaths_sleep (n : Nat) :
    uploadReqPaths [Event.sleepSecs n] = [] := rfl

lemma uploadReqPaths_bulkErr (nm : String) (e : Err) :
    uploadReqPaths [Event.printBulkError nm e] = [] := rfl

/-- A directory entry with an unrecognised extension is skipped entirely. -/
lemma bulk_upload_cons_skip (r : Remote) (s : Session) (video_dir name : String)
    (rest : List String) (pr : Nat) (cn : Option String)
    (hm : matchesExt video_dir name = false) :
    bulk_upload r s video_dir (name :: rest) pr cn =
      bulk_upload r s video_dir rest pr cn := by
  have hcond : video_extensions.contains
      (strLower (pySuffix (video_dir ++ "/" ++ name))) = false := hm
  simp only [bulk_upload, hcond]
  exact if_neg (by simp)

/-- A matching entry whose upload succeeds contributes its document and a
pause, and the loop continues on the unchanged session. -/
lemma bulk_upload_cons_ok (r : Remote) (s : Session) (video_dir name : String)
    (rest : List String) (pr : Nat) (cn : Option String)
    (h : tokenFalsy s = false) (hm : matchesExt video_dir name = true)
    (he : uploadErrOf (r.uploadFor (video_dir ++ "/" ++ name)) = none) :
    bulk_upload r s video_dir (name :: rest) pr cn =
      ((r.uploadFor (video_dir ++ "/" ++ name)).doc ::
          (bulk_upload r s video_dir rest pr cn).1,
        (bulk_upload r s video_dir rest pr cn).2.1,
        (upload_body r s (video_dir ++ "/" ++ name) none none pr cn true).2.2
          ++ [Event.sleepSecs 2] ++ (bulk_upload r s video_dir rest pr cn).2.2) := by
  have hcond : video_extensions.contains
      (strLower (pySuffix (video_dir ++ "/" ++ name))) = true := hm
  simp only [bulk_upload, hcond]
  rw [if_pos trivial,
    upload_video_char r s (video_dir ++ "/" ++ name) none none pr cn true h, he]

/-- A matching entry whose upload raises contributes only the reported
error, and the loop continues on the unchanged session. -/
lemma bulk_upload_cons_err (r : Remote) (s : Session) (video_dir name : String)
    (rest : List String) (pr : Nat) (cn : Option String) (e : Err)
    (h : tokenFalsy s = false) (hm : matchesExt video_dir name = true)
    (he : uploadErrOf (r.uploadFor (video_dir ++ "/" ++ name)) = some e) :
    bulk_upload r s video_dir (name :: rest) pr cn =
      ((bulk_upload r s video_dir rest pr cn).1,
        (bulk_upload r s video_dir rest pr cn).2.1,
        (upload_body r s (video_dir ++ "/" ++ name) none none pr cn true).2.2
          ++ [Event.printBulkError (pyName (video_dir ++ "/" ++ name)) e]
          ++ (bulk_upload r s video_dir rest pr cn).2.2) := by
  have hcond : video_extensions.contains
      (strLower (pySuffix (video_dir ++ "/" ++ name))) = true := hm
  simp only [bulk_upload, hcond]
  rw [if_pos trivial,
    upload_video_char r s (video_dir ++ "/" ++ name) none none pr cn true h, he]

/-- C3: with a token present, bulk upload returns exactly the result
documents of the successful uploads, in processing order — failed files are
simply absent — and every failed file's error is reported in the trace
while iteration continues (later successes still appear). -/
theorem c3_bulk_reports_and_continues (r : Remote) (s : Session)
    (video_dir : String) (listing : List String) (pr : Nat) (cn : Option String)
    (h : tokenFalsy s = false) :
    (bulk_upload r s video_dir listing pr cn).1 =
      (listing.filter (matchesExt video_dir)).filterMap
        (fun n => uploadOutcome r (video_dir ++ "/" ++ n)) ∧
    ∀ n ∈ listing, ∀ e, matchesExt video_dir n = true →
      uploadErrOf (r.uploadFor (video_dir ++ "/" ++ n)) = some e →
      Event.printBulkError (pyName (video_dir ++ "/" ++ n)) e ∈
        (bulk_upload r s video_dir listing pr cn).2.2 := by
  induction listing with
  | nil =>
      exact ⟨rfl, by intro n hn; simp at hn⟩
  | cons name rest ih =>
      obtain ⟨ih1, ih2⟩ := ih
      cases hm : matchesExt video_dir name with
      | false =>
          rw [bulk_upload_cons_skip r s video_dir name rest pr cn hm]
          constructor
          · rw [show (name :: rest).filter (matchesExt video_dir) =
                rest.filter (matchesExt video_dir) from by
                  simp [List.filter_cons, hm]]
            exact ih1
          · intro n hn e hme hue
            rcases List.mem_cons.mp hn with rfl | hn'
            · rw [hm] at hme
              cases hme
            · exact ih2 n hn' e hme hue
      | true =>
          cases he : uploadErrOf (r.uploadFor (video_dir ++ "/" ++ name)) with
          | none =>
              rw [bulk_upload_cons_ok r s video_dir name rest pr cn h hm he]
              constructor
              · have hout : uploadOutcome r (video_dir ++ "/" ++ name) =
                    some (r.uploadFor (video_dir ++ "/" ++ name)).doc := by
                  simp [uploadOutcome, he]
                simp [List.filter_cons, hm, List.filterMap_cons, hout, ih1]
              · intro n hn e hme hue
                rcases List.mem_cons.mp hn with rfl | hn'
                · rw [he] at hue
                  simp at hue
                · have hmem := ih2 n hn' e hme hue
                  simp only [List.mem_append]
                  exact Or.inr hmem
          | some e0 =>
              rw [bulk_upload_cons_err r s video_dir name rest pr cn e0 h hm he]
              constructor
              · have hout : uploadOutcome r (video_dir ++ "/" ++ name) = none := by
                  simp [uploadOutcome, he]
                simp [List.filter_cons, hm, List.filterMap_cons, hout, ih1]
              · intro n hn e hme hue
                rcases List.mem_cons.mp hn with rfl | hn'
                · rw [he] at hue
                  have he0 : e0 = e := by
                    exact Option.some.inj hue
                  subst he0
                  simp [List.mem_append]
                · have hmem := ih2 n hn' e hme hue
                  simp only [List.mem_append]
                  exact Or.inr hmem

/-- Witness for C3: of three recognized files the second one's upload
fails with a 500; the returned list holds the first and third results in
order, and the second file's error is reported in the trace. -/
theorem c3_witness :
    tokenFalsy sessionAuthed = false ∧
    (bulk_upload remoteBulk sessionAuthed "d" ["a.mp4", "b.mp4", "c.mp4"]
        1 none).1 =
      ((["a.mp4", "b.mp4", "c.mp4"].filter (matchesExt "d")).filterMap
        (fun n => uploadOutcome remoteBulk ("d" ++ "/" ++ n))) ∧
    (bulk_upload remoteBulk sessionAuthed "d" ["a.mp4", "b.mp4", "c.mp4"]
        1 none).1 = [42, 42] ∧
    Event.printBulkError (pyName ("d" ++ "/" ++ "b.mp4")) (Err.httpError 500) ∈
      (bulk_upload remoteBulk sessionAuthed "d" ["a.mp4", "b.mp4", "c.mp4"]
        1 none).2.2 :=
  have hc3 := c3_bulk_reports_and_continues remoteBulk sessionAuthed "d"
    ["a.mp4", "b.mp4", "c.mp4"] 1 none (by decide)
  ⟨by decide, hc3.1, by decide,
    hc3.2 "b.mp4" (by decide) (Err.httpError 500) (by decide) (by decide)⟩

/-- C8: with a token present, the upload requests issued by a bulk run are
exactly one per directory entry whose extension matches `.mp4`, `.webm` or
`.mkv` case-insensitively, in listing order, each with the
wait-for-transcoding flag set; all other entries cause no request. -/
theorem c8_bulk_extension_filter (r : Remote) (s : Session)
    (video_dir : String) (listing : List String) (pr : Nat) (cn : Option String)
    (h : tokenFalsy s = false) :
    uploadReqPaths (bulk_upload r s video_dir listing pr cn).2.2 =
      (listing.filter (matchesExt video_dir)).map
        (fun n => (video_dir ++ "/" ++ n, true)) := by
  induction listing with
  | nil => rfl
  | cons name rest ih =>
      cases hm : matchesExt video_dir name with
      | false =>
          rw [bulk_upload_cons_skip r s video_dir name rest pr cn hm]
          simp [List.filter_cons, hm, ih]
      | true =>
          cases he : uploadErrOf (r.uploadFor (video_dir ++ "/" ++ name)) with
          | none =>
              rw [bulk_upload_cons_ok r s video_dir name rest pr cn h hm he,
                uploadReqPaths_append, uploadReqPaths_append,
                upload_body_paths, uploadReqPaths_sleep]
              simp [List.filter_cons, hm, ih]
          | some e0 =>
              rw [bulk_upload_cons_err r s video_dir name rest pr cn e0 h hm he,
                uploadReqPaths_append, uploadReqPaths_append,
                upload_body_paths, uploadReqPaths_bulkErr]
              simp [List.filter_cons, hm, ih]

/-- Witness for C8 on the spec's example directory: exactly `a.mp4`,
`c.MKV` and `d.webm` are uploaded (case-insensitive match), `b.txt` is
skipped. -/
theorem c8_witness :
    tokenFalsy sessionAuthed = false ∧
    uploadReqPaths
      (bulk_upload remoteOk sessionAuthed "d" ["a.mp4", "b.txt", "c.MKV", "d.webm"]
        1 none).2.2 =
      ((["a.mp4", "b.txt", "c.MKV", "d.webm"].filter (matchesExt "d")).map
        (fun n => ("d" ++ "/" ++ n, true))) ∧
    uploadReqPaths
      (bulk_upload remoteOk sessionAuthed "d" ["a.mp4", "b.txt", "c.MKV", "d.webm"]
        1 none).2.2 =
      [("d/a.mp4", true), ("d/c.MKV", true), ("d/d.webm", true)] :=
  ⟨by decide,
    c8_bulk_extension_filter remoteOk sessionAuthed "d"
      ["a.mp4", "b.txt", "c.MKV", "d.webm"] 1 none (by decide),
    by decide⟩
